import Mathlib

/-!
Verification of the INWX Terraform provider's request/response translation
layer: the composite-ID parsers, the decoded RPC response model with its
dynamic type assertions, the provider configuration login/unlock flow, and
the per-resource create/read/update/delete handlers.

Modelling conventions:
* Go strings are Lean strings; `strings.Split` with a one-character
  separator is modelled on the character list of the string.
* Decoded JSON values (the dynamically typed values `encoding/json`
  produces) are an inductive `JsonValue`; JSON numbers, which Go decodes
  to `float64`, are modelled as exact rationals.
* A Go run-time panic from a failed type assertion is modelled as
  `Option.none` threaded through the affected computation.
-/

set_option maxHeartbeats 1000000

namespace Inwx

/-- Model of Go `strings.Split(s, sep)` for a one-character separator,
acting on the character list of the string: `strings.Split("", sep)`
is `[""]`, and every occurrence of the separator starts a new field. -/
def goSplitChars (sep : Char) : List Char → List (List Char)
  | [] => [[]]
  | c :: rest =>
    match goSplitChars sep rest with
    | [] => [[]]
    | p :: ps => if c = sep then [] :: p :: ps else (c :: p) :: ps

/-- Joining fields back with the separator; inverse of `goSplitChars`. -/
def joinSepChars (sep : Char) : List (List Char) → List Char
  | [] => []
  | [p] => p
  | p :: q :: ps => p ++ sep :: joinSepChars sep (q :: ps)

/-- Go `strings.Split` for a one-character separator, at the string level. -/
def goSplit (sep : Char) (s : String) : List String :=
  (goSplitChars sep s.toList).map List.asString

/-- `parseGlueRecordID` from `internal/provider/resource_glue_record.go`:
splits the composite ID on a colon and requires exactly two non-empty
parts. -/
def parseGlueRecordID (id : String) : Except String (String × String) :=
  let parts := goSplit ':' id
  if parts.length ≠ 2 ∨ parts.getD 0 "" = "" ∨ parts.getD 1 "" = "" then
    .error ("unexpected format of ID (" ++ id ++ "), expected \x27attribute1:attribute2\x27")
  else
    .ok (parts.getD 0 "", parts.getD 1 "")

/-- `resourceNameserverRecordParseId` from the nameserver-record resource:
splits the composite ID on a colon and requires exactly two non-empty
parts. -/
def resourceNameserverRecordParseId (id : String) : Except String (String × String) :=
  let parts := goSplit ':' id
  if parts.length ≠ 2 ∨ parts.getD 0 "" = "" ∨ parts.getD 1 "" = "" then
    .error ("unexpected format of ID (" ++ id ++ "), expected \x27domain:id\x27")
  else
    .ok (parts.getD 0 "", parts.getD 1 "")

/-- Import-identifier parsing of `DNSSECKeyResource.ImportState`: splits on
a slash and requires exactly two parts (which may be empty). -/
def dnssecKeyImportParse (id : String) : Except String (String × String) :=
  let parts := goSplit '/' id
  if parts.length ≠ 2 then
    .error ("Expected import identifier with format: domain/digest. Got: " ++ id)
  else
    .ok (parts.getD 0 "", parts.getD 1 "")

/-- A decoded JSON value, as `encoding/json` produces it into a dynamically
typed Go value: numbers become `float64` (modelled as exact rationals),
objects become string-keyed maps (modelled as association lists). -/
inductive JsonValue where
  | null : JsonValue
  | bool : Bool → JsonValue
  | num : Rat → JsonValue
  | str : String → JsonValue
  | arr : List JsonValue → JsonValue
  | obj : List (String × JsonValue) → JsonValue

/-- Result of the Go type assertion `v.(float64)`; `none` models the
run-time panic raised when the dynamic type differs. -/
def JsonValue.asNum : JsonValue → Option Rat
  | .num q => some q
  | _ => none

/-- Result of the Go type assertion `v.(string)`. -/
def JsonValue.asStr : JsonValue → Option String
  | .str s => some s
  | _ => none

/-- Result of the Go type assertion to a string-keyed map. -/
def JsonValue.asObj : JsonValue → Option (List (String × JsonValue))
  | .obj fs => some fs
  | _ => none

/-- Result of the Go type assertion to a value slice. -/
def JsonValue.asArr : JsonValue → Option (List JsonValue)
  | .arr vs => some vs
  | _ => none

/-- The string `reflect.TypeOf` produces for the dynamic type of a decoded
JSON value. -/
def JsonValue.goTypeName : JsonValue → String
  | .null => "<nil>"
  | .bool _ => "bool"
  | .num _ => "float64"
  | .str _ => "string"
  | .arr _ => "[]interface \x7b\x7d"
  | .obj _ => "map[string]interface \x7b\x7d"

/-- Decimal rendering of a JSON number in the marshalled response body. -/
def ratRender (q : Rat) : String :=
  if q.den = 1 then toString q.num else toString q.num ++ "/" ++ toString q.den

mutual

/-- Model of `json.Marshal` on a decoded JSON value, used by
`Response.ApiError` to turn the raw response body back into a string.
Object fields are rendered in list order. -/
def JsonValue.render : JsonValue → String
  | .null => "null"
  | .bool true => "true"
  | .bool false => "false"
  | .num q => ratRender q
  | .str s => "\x22" ++ s ++ "\x22"
  | .arr vs => "[" ++ JsonValue.renderSeq vs ++ "]"
  | .obj fs => "\x7b" ++ JsonValue.renderFields fs ++ "\x7d"

/-- Comma-separated rendering of the elements of a JSON array. -/
def JsonValue.renderSeq : List JsonValue → String
  | [] => ""
  | [v] => JsonValue.render v
  | v :: vs => JsonValue.render v ++ "," ++ JsonValue.renderSeq vs

/-- Comma-separated rendering of the fields of a JSON object. -/
def JsonValue.renderFields : List (String × JsonValue) → String
  | [] => ""
  | [(k, v)] => "\x22" ++ k ++ "\x22:" ++ JsonValue.render v
  | (k, v) :: fs => "\x22" ++ k ++ "\x22:" ++ JsonValue.render v ++ "," ++ JsonValue.renderFields fs

end

/-- The decoded RPC response: Go type `Response map[string]interface` with
dynamically typed values, modelled as an association list. -/
abbrev Response := List (String × JsonValue)

/-- Key lookup in a decoded response; `none` models the `nil` value a Go
map produces for a missing key. -/
def Response.lookup (r : Response) (k : String) : Option JsonValue :=
  List.lookup k r

/-- `Response.Code`: evaluates `r["code"].(float64)`. The result is `none`
(a run-time panic) when the key is missing or bound to a non-number. -/
def Response.code (r : Response) : Option Rat :=
  match Response.lookup r "code" with
  | some v => v.asNum
  | none => none

/-- `Response.ApiError`: marshals the whole decoded response back to a
string (the raw response body). -/
def Response.apiError (r : Response) : String :=
  JsonValue.render (.obj r)

/-- `COMMAND_SUCCESSFUL`: response code 1000. -/
def COMMAND_SUCCESSFUL : Rat := 1000

/-- `COMMAND_SUCCESSFUL_PENDING`: response code 1001. -/
def COMMAND_SUCCESSFUL_PENDING : Rat := 1001

/-- Go conversion `int(f)` applied to a decoded `float64`: truncation
toward zero. -/
def ratTrunc (q : Rat) : Int :=
  if 0 ≤ q then q.floor else -((-q).floor)

/-- A Terraform framework attribute value: null, unknown, or a known
value. `Equal` on framework values is exact equality of this type. -/
inductive TfValue (α : Type) where
  | null : TfValue α
  | unknown : TfValue α
  | known : α → TfValue α
deriving DecidableEq

/-- Zero-value fallback used by the framework `Value...` accessors on a
null or unknown value. -/
def TfValue.valueOr {α : Type} (z : α) : TfValue α → α
  | .known a => a
  | _ => z

/-- `types.String.ValueString`: the known value, or `""`. -/
def TfValue.valueString (v : TfValue String) : String :=
  v.valueOr ""

/-- `types.Bool.ValueBool`: the known value, or `false`. -/
def TfValue.valueBool (v : TfValue Bool) : Bool :=
  v.valueOr false

/-- `types.Int64.ValueInt64`: the known value, or `0`. -/
def TfValue.valueInt (v : TfValue Int) : Int :=
  v.valueOr 0

/-- Elements of a known list value, or `[]`. -/
def TfValue.valueList {α : Type} (v : TfValue (List α)) : List α :=
  v.valueOr []

/-- `IsUnknown` on a framework value. -/
def TfValue.isUnknown {α : Type} : TfValue α → Bool
  | .unknown => true
  | _ => false

/-- `IsNull` on a framework value. -/
def TfValue.isNull {α : Type} : TfValue α → Bool
  | .null => true
  | _ => false

/-- A value placed into an RPC parameter map by a resource handler. -/
inductive ParamValue where
  | str : String → ParamValue
  | int : Int → ParamValue
  | bool : Bool → ParamValue
  /-- The element list of a framework list value, as `Elements()` yields it. -/
  | elems : List String → ParamValue
  /-- The `diag.Diagnostics` return value of `ElementsAs`: the source passes
  the call expression itself as the parameter value. -/
  | diags : ParamValue
deriving DecidableEq

/-- An RPC parameter map under construction (Go `map[string]interface`
with the handler's insertion order made explicit). -/
abbrev Params := List (String × ParamValue)

/-- `domainContacts`: the four contact IDs of a domain. -/
structure DomainContacts where
  registrant : TfValue Int
  admin : TfValue Int
  tech : TfValue Int
  billing : TfValue Int
deriving DecidableEq

/-- `domainResourceModel`: Terraform state/plan of the domain resource. -/
structure DomainResourceModel where
  id : TfValue String
  name : TfValue String
  nameservers : TfValue (List String)
  period : TfValue String
  renewalMode : TfValue String
  transferLock : TfValue Bool
  contacts : DomainContacts
  extraData : TfValue (List (String × String))
deriving DecidableEq

/-- `domainContactModel`: Terraform state/plan of the contact resource. -/
structure DomainContactModel where
  id : TfValue String
  type : TfValue String
  name : TfValue String
  organization : TfValue String
  streetAddress : TfValue String
  city : TfValue String
  postalCode : TfValue String
  stateProvince : TfValue String
  countryCode : TfValue String
  phoneNumber : TfValue String
  fax : TfValue String
  email : TfValue String
  remarks : TfValue String
  whoisProtection : TfValue Bool
deriving DecidableEq

/-- `GlueRecordResourceModel`: Terraform state/plan of the glue record. -/
structure GlueRecordResourceModel where
  id : TfValue String
  hostname : TfValue String
  roID : TfValue Int
  ip : TfValue (List String)
  testing : TfValue Bool
deriving DecidableEq

/-- `NameserverRecordModel`: Terraform state/plan of a nameserver record. -/
structure NameserverRecordModel where
  id : TfValue String
  domain : TfValue String
  roID : TfValue Int
  type : TfValue String
  content : TfValue String
  name : TfValue String
  ttl : TfValue Int
  prio : TfValue Int
  urlRedirectType : TfValue String
  urlRedirectTitle : TfValue String
  urlRedirectDescription : TfValue String
  urlRedirectFavIcon : TfValue String
  urlRedirectKeywords : TfValue String
  urlAppend : TfValue Bool
  testing : TfValue Bool
deriving DecidableEq

/-- Parameter map built by `domainResource.Update`: the identifying
`domain` key from state, then one key per field whose planned value
differs from state. The `ns` and `extData` values record that the source
passes the `ElementsAs` diagnostics return value there. -/
def domainUpdateParams (plan state : DomainResourceModel) : Params :=
  let ps : Params := [("domain", .str state.name.valueString)]
  let ps := if plan.nameservers ≠ state.nameservers then ps ++ [("ns", .diags)] else ps
  let ps := if plan.period ≠ state.period then ps ++ [("period", .str plan.period.valueString)] else ps
  let ps := if plan.renewalMode ≠ state.renewalMode then ps ++ [("renewalMode", .str plan.renewalMode.valueString)] else ps
  let ps := if plan.transferLock ≠ state.transferLock then ps ++ [("transferLock", .bool plan.transferLock.valueBool)] else ps
  let ps := if plan.contacts ≠ state.contacts then
      ps ++ [("registrant", .int plan.contacts.registrant.valueInt),
             ("admin", .int plan.contacts.admin.valueInt),
             ("tech", .int plan.contacts.tech.valueInt),
             ("billing", .int plan.contacts.billing.valueInt)]
    else ps
  if plan.extraData ≠ state.extraData then ps ++ [("extData", .diags)] else ps

/-- Parameter map built by `domainContactResource.Update`: the identifying
`id` key from state, an abort when `type` changed, then one key per field
whose planned value differs from state. -/
def contactUpdateParams (plan state : DomainContactModel) : Except String Params :=
  let ps : Params := [("id", .str state.id.valueString)]
  if plan.type ≠ state.type then
    .error "The \x60type\x60 field cannot be updated after resource creation."
  else
    let ps := if plan.name ≠ state.name then ps ++ [("name", .str plan.name.valueString)] else ps
    let ps := if plan.organization ≠ state.organization then ps ++ [("org", .str plan.organization.valueString)] else ps
    let ps := if plan.streetAddress ≠ state.streetAddress then ps ++ [("street", .str plan.streetAddress.valueString)] else ps
    let ps := if plan.city ≠ state.city then ps ++ [("city", .str plan.city.valueString)] else ps
    let ps := if plan.postalCode ≠ state.postalCode then ps ++ [("pc", .str plan.postalCode.valueString)] else ps
    let ps := if plan.stateProvince ≠ state.stateProvince then ps ++ [("sp", .str plan.stateProvince.valueString)] else ps
    let ps := if plan.countryCode ≠ state.countryCode then ps ++ [("cc", .str plan.countryCode.valueString)] else ps
    let ps := if plan.phoneNumber ≠ state.phoneNumber then ps ++ [("voice", .str plan.phoneNumber.valueString)] else ps
    let ps := if plan.fax ≠ state.fax then ps ++ [("fax", .str plan.fax.valueString)] else ps
    let ps := if plan.email ≠ state.email then ps ++ [("email", .str plan.email.valueString)] else ps
    let ps := if plan.remarks ≠ state.remarks then ps ++ [("remarks", .str plan.remarks.valueString)] else ps
    let ps := if plan.whoisProtection ≠ state.whoisProtection then ps ++ [("protection", .bool plan.whoisProtection.valueBool)] else ps
    .ok ps

/-- Parameter map built by `GlueRecordResource.Update`: `roId` parsed from
the plan's composite ID and `ip` are always sent; `hostname` and `testing`
are added when the corresponding plan value `IsUnknown`. The handler never
compares plan against state. -/
def glueUpdateParams (plan : GlueRecordResourceModel) : Except String Params :=
  match parseGlueRecordID plan.id.valueString with
  | .error e => .error ("Could not parse ID: " ++ e)
  | .ok (_, roID) =>
    let ps : Params := [("roId", .str roID), ("ip", .elems plan.ip.valueList)]
    let ps := if plan.hostname.isUnknown then ps ++ [("hostname", .str plan.hostname.valueString)] else ps
    let ps := if plan.testing.isUnknown then ps ++ [("testing", .bool plan.testing.valueBool)] else ps
    .ok ps

/-- `domainResource.Create` after a transport-successful `domain.create`
call: status-code check, then the state written on success (the ID becomes
the domain name; the response body is not read further). -/
def domainCreateRespond (plan : DomainResourceModel) (r : Response) :
    Option (Except String DomainResourceModel) :=
  match Response.code r with
  | none => none
  | some c =>
    if c ≠ COMMAND_SUCCESSFUL ∧ c ≠ COMMAND_SUCCESSFUL_PENDING then
      some (.error ("API response not status code 1000 or 1001. Got response: " ++ Response.apiError r))
    else
      some (.ok { plan with id := .known plan.name.valueString })

/-- `domainResource.Update` after a transport-successful `domain.update`
call: status-code check, then the plan is written to state unchanged. -/
def domainUpdateRespond (plan : DomainResourceModel) (r : Response) :
    Option (Except String DomainResourceModel) :=
  match Response.code r with
  | none => none
  | some c =>
    if c ≠ COMMAND_SUCCESSFUL ∧ c ≠ COMMAND_SUCCESSFUL_PENDING then
      some (.error ("API response not status code 1000 or 1001. Got response: " ++ Response.apiError r))
    else
      some (.ok plan)

/-- `domainResource.Delete` after a transport-successful `domain.delete`
call: only the status-code check (no state is written). -/
def domainDeleteRespond (r : Response) : Option (Except String Unit) :=
  match Response.code r with
  | none => none
  | some c =>
    if c ≠ COMMAND_SUCCESSFUL ∧ c ≠ COMMAND_SUCCESSFUL_PENDING then
      some (.error ("API response not status code 1000 or 1001. Got response: " ++ Response.apiError r))
    else
      some (.ok ())

/-- `GlueRecordResource.Create` after a transport-successful `host.create`
call: status-code check, then `roId` is read from `resData` and the
composite ID `hostname:roId` is written to state. -/
def glueCreateRespond (plan : GlueRecordResourceModel) (r : Response) :
    Option (Except String GlueRecordResourceModel) :=
  match Response.code r with
  | none => none
  | some c =>
    if c ≠ COMMAND_SUCCESSFUL ∧ c ≠ COMMAND_SUCCESSFUL_PENDING then
      some (.error ("Unexpected API response: " ++ Response.apiError r))
    else
      match ((Response.lookup r "resData").getD .null).asObj with
      | none => none
      | some resData =>
        match ((List.lookup "roId" resData).getD .null).asNum with
        | none => none
        | some ro =>
          some (.ok { plan with
            roID := .known (ratTrunc ro),
            id := .known (plan.hostname.valueString ++ ":" ++ toString (ratTrunc ro)) })

/-- `NameserverRecordResource.Create` after a transport-successful
`nameserver.createRecord` call: only code 1000 passes the status check,
then the composite ID `domain:id` is written to state. -/
def nsRecordCreateRespond (data : NameserverRecordModel) (r : Response) :
    Option (Except String NameserverRecordModel) :=
  match Response.code r with
  | none => none
  | some c =>
    if c ≠ COMMAND_SUCCESSFUL then
      some (.error (Response.apiError r))
    else
      match ((Response.lookup r "resData").getD .null).asObj with
      | none => none
      | some resData =>
        match ((List.lookup "id" resData).getD .null).asNum with
        | none => none
        | some idNum =>
          some (.ok { data with
            id := .known (data.domain.valueString ++ ":" ++ toString (ratTrunc idNum)) })

/-- `resolveID` from `resource_domain_contact.go`: a string ID is kept
unchanged, a `float64` ID is truncated to an integer and rendered in
decimal, and any other dynamic type is an error. -/
def resolveID : JsonValue → Except String String
  | .str s => .ok s
  | .num q => .ok (toString (ratTrunc q))
  | v => .error ("API returned unexpected type for contact ID: " ++ v.goTypeName)

/-- `domainContactResource.Create` after a transport-successful
`contact.create` call: no status-code check is performed; the `resData.id`
field is resolved by `resolveID` and written to state on success. -/
def contactCreateRespond (data : DomainContactModel) (r : Response) :
    Option (Except String DomainContactModel) :=
  match ((Response.lookup r "resData").getD .null).asObj with
  | none => none
  | some resData =>
    match resolveID ((List.lookup "id" resData).getD .null) with
    | .error e => some (.error ("Failed to resolve contact ID: " ++ e))
    | .ok newID => some (.ok { data with id := .known newID })

/-- `domainContactResource.Update` after a transport-successful
`contact.update` call: status-code check, then the plan (with the state's
ID retained) is written to state. -/
def contactUpdateRespond (plan state : DomainContactModel) (r : Response) :
    Option (Except String DomainContactModel) :=
  match Response.code r with
  | none => none
  | some c =>
    if c ≠ COMMAND_SUCCESSFUL ∧ c ≠ COMMAND_SUCCESSFUL_PENDING then
      some (.error ("API response: " ++ Response.apiError r))
    else
      some (.ok { plan with id := state.id })

/-- `domainContactResource.Delete` after a transport-successful
`contact.delete` call: only the status-code check. -/
def contactDeleteRespond (r : Response) : Option (Except String Unit) :=
  match Response.code r with
  | none => none
  | some c =>
    if c ≠ COMMAND_SUCCESSFUL ∧ c ≠ COMMAND_SUCCESSFUL_PENDING then
      some (.error ("API response: " ++ Response.apiError r))
    else
      some (.ok ())

/-- Outcome of a framework `Read`: either new state is written or the
resource is removed from state. -/
inductive ReadOutcome (σ : Type) where
  | written : σ → ReadOutcome σ
  | removed : ReadOutcome σ

/-- `types.ListValueFrom` on a decoded JSON array, diagnostics ignored as
in the source: a known string list when every element is a string. -/
def listValueFrom (vs : List JsonValue) : TfValue (List String) :=
  if vs.all (fun v => v.asStr.isSome) then .known (vs.filterMap JsonValue.asStr) else .null

/-- The loop of `NameserverRecordResource.Read` over `resData.record`: the
first entry whose synthesized `domain:id` equals the state ID provides
`type` and `content`; when no entry matches, the resource is removed. -/
def nsRecordReadLoop (data : NameserverRecordModel) :
    List JsonValue → Option (ReadOutcome NameserverRecordModel)
  | [] => some .removed
  | entry :: rest =>
    match entry.asObj with
    | none => none
    | some recordData =>
      match ((List.lookup "id" recordData).getD .null).asNum with
      | none => none
      | some idNum =>
        if data.domain.valueString ++ ":" ++ toString (ratTrunc idNum) = data.id.valueString then
          match ((List.lookup "type" recordData).getD .null).asStr with
          | none => none
          | some ty =>
            match ((List.lookup "content" recordData).getD .null).asStr with
            | none => none
            | some content =>
              some (.written { data with type := .known ty, content := .known content })
        else
          nsRecordReadLoop data rest

/-- `NameserverRecordResource.Read` after a transport-successful
`nameserver.info` call (the source performs no status-code check here). -/
def nsRecordReadRespond (data : NameserverRecordModel) (r : Response) :
    Option (ReadOutcome NameserverRecordModel) :=
  match ((Response.lookup r "resData").getD .null).asObj with
  | none => none
  | some resData =>
    match ((List.lookup "record" resData).getD .null).asArr with
    | none => none
    | some records => nsRecordReadLoop data records

/-- The loop of `GlueRecordResource.Read` over `resData.record`: every
entry whose synthesized `hostname:roId` (with the current state's
hostname) equals the state ID overwrites `ro_id`, `hostname` and `ip`;
other entries leave the state untouched. -/
def glueReadLoop (state : GlueRecordResourceModel) :
    List JsonValue → Option GlueRecordResourceModel
  | [] => some state
  | entry :: rest =>
    match entry.asObj with
    | none => none
    | some record =>
      match ((List.lookup "roId" record).getD .null).asNum with
      | none => none
      | some ro =>
        if state.hostname.valueString ++ ":" ++ toString (ratTrunc ro) = state.id.valueString then
          match ((List.lookup "hostname" record).getD .null).asStr with
          | none => none
          | some hn =>
            match ((List.lookup "ip" record).getD .null).asArr with
            | none => none
            | some ips =>
              glueReadLoop { state with
                roID := .known (ratTrunc ro),
                hostname := .known hn,
                ip := listValueFrom ips } rest
        else
          glueReadLoop state rest

/-- `GlueRecordResource.Read` after a transport-successful `host.info`
call: status-code check (1000 only), then the filter loop over the
returned record list. -/
def glueReadRespond (state : GlueRecordResourceModel) (r : Response) :
    Option (Except String GlueRecordResourceModel) :=
  match Response.code r with
  | none => none
  | some c =>
    if c ≠ COMMAND_SUCCESSFUL then
      some (.error ("Unexpected API response: " ++ Response.apiError r))
    else
      match ((Response.lookup r "resData").getD .null).asObj with
      | none => none
      | some resData =>
        match ((List.lookup "record" resData).getD .null).asArr with
        | none => none
        | some records =>
          match glueReadLoop state records with
          | none => none
          | some st => some (.ok st)

/-- Result of one `Client.Call`: a transport error (the response is `nil`)
or a decoded response body. -/
inductive CallResult where
  | failure : String → CallResult
  | success : Response → CallResult

/-- One run of the provider-configuration authentication phase: the RPC
calls issued in order (method and parameters) and the outcome — an error
diagnostic, the client handed to resources (`Except.ok`), or `none` for a
run-time panic in `Response.Code`. -/
structure ConfigureRun where
  trace : List (String × Params)
  outcome : Option (Except String Unit)

/-- The authentication phase of `inwxProvider.Configure` (framework
provider): `account.login`, then `account.info`, then `account.unlock`
when the info response is non-nil with code 2200 and a non-empty TAN is
configured. The transport error of `account.info` is ignored by the
source. -/
def inwxProviderConfigureAuth (username password tan : String)
    (oracle : String → CallResult) : ConfigureRun :=
  let loginCall : String × Params :=
    ("account.login", [("user", .str username), ("pass", .str password)])
  match oracle "account.login" with
  | .failure e =>
    ⟨[loginCall], some (.error ("Could not authenticate at api via account.login: " ++ e))⟩
  | .success r =>
    match Response.code r with
    | none => ⟨[loginCall], none⟩
    | some c =>
      if c ≠ COMMAND_SUCCESSFUL then
        ⟨[loginCall],
          some (.error ("Could not authenticate at api via account.login. Got response: " ++ Response.apiError r))⟩
      else
        let infoCall : String × Params := ("account.info", [])
        match oracle "account.info" with
        | .failure _ => ⟨[loginCall, infoCall], some (.ok ())⟩
        | .success ri =>
          match Response.code ri with
          | none => ⟨[loginCall, infoCall], none⟩
          | some ci =>
            if ci = 2200 ∧ tan ≠ "" then
              let unlockCall : String × Params := ("account.unlock", [("tan", .str tan)])
              match oracle "account.unlock" with
              | .failure e =>
                ⟨[loginCall, infoCall, unlockCall],
                  some (.error ("Could not authenticate at api via account.unlock: " ++ e))⟩
              | .success ru =>
                match Response.code ru with
                | none => ⟨[loginCall, infoCall, unlockCall], none⟩
                | some cu =>
                  if cu ≠ COMMAND_SUCCESSFUL then
                    ⟨[loginCall, infoCall, unlockCall],
                      some (.error ("Could not authenticate at api via account.unlock. Got response: " ++ Response.apiError ru))⟩
                  else
                    ⟨[loginCall, infoCall, unlockCall], some (.ok ())⟩
            else
              ⟨[loginCall, infoCall], some (.ok ())⟩

/-- The authentication phase of `configureContext` (legacy SDK provider):
a single `account.login` call; any transport error or non-1000 code ends
configuration with an error diagnostic and no client. -/
def configureContextAuth (username password : String)
    (oracle : String → CallResult) : ConfigureRun :=
  let loginCall : String × Params :=
    ("account.login", [("user", .str username), ("pass", .str password)])
  match oracle "account.login" with
  | .failure e =>
    ⟨[loginCall], some (.error ("Could not authenticate at api via account.login: " ++ e))⟩
  | .success r =>
    match Response.code r with
    | none => ⟨[loginCall], none⟩
    | some c =>
      if c ≠ COMMAND_SUCCESSFUL then
        ⟨[loginCall],
          some (.error ("Could not authenticate at api via account.login. Got response: " ++ Response.apiError r))⟩
      else
        ⟨[loginCall], some (.ok ())⟩

/-- Spec-side description of the keys of the `domain.update` parameter
map, following the spec's words: the identifying `domain` field plus one
key per field whose planned value differs from its state value. -/
def domainUpdateKeySpec (plan state : DomainResourceModel) (k : String) : Bool :=
  k == "domain"
  || (decide (plan.nameservers ≠ state.nameservers) && k == "ns")
  || (decide (plan.period ≠ state.period) && k == "period")
  || (decide (plan.renewalMode ≠ state.renewalMode) && k == "renewalMode")
  || (decide (plan.transferLock ≠ state.transferLock) && k == "transferLock")
  || (decide (plan.contacts ≠ state.contacts)
      && (k == "registrant" || k == "admin" || k == "tech" || k == "billing"))
  || (decide (plan.extraData ≠ state.extraData) && k == "extData")

/-- Spec-side description of the keys of the `contact.update` parameter
map, following the spec's words: the identifying `id` field plus one key
per field whose planned value differs from its state value. -/
def contactUpdateKeySpec (plan state : DomainContactModel) (k : String) : Bool :=
  k == "id"
  || (decide (plan.name ≠ state.name) && k == "name")
  || (decide (plan.organization ≠ state.organization) && k == "org")
  || (decide (plan.streetAddress ≠ state.streetAddress) && k == "street")
  || (decide (plan.city ≠ state.city) && k == "city")
  || (decide (plan.postalCode ≠ state.postalCode) && k == "pc")
  || (decide (plan.stateProvince ≠ state.stateProvince) && k == "sp")
  || (decide (plan.countryCode ≠ state.countryCode) && k == "cc")
  || (decide (plan.phoneNumber ≠ state.phoneNumber) && k == "voice")
  || (decide (plan.fax ≠ state.fax) && k == "fax")
  || (decide (plan.email ≠ state.email) && k == "email")
  || (decide (plan.remarks ≠ state.remarks) && k == "remarks")
  || (decide (plan.whoisProtection ≠ state.whoisProtection) && k == "protection")

/-- An entry of the `nameserver.info` record list whose synthesized
composite ID `domain:id` differs from the ID stored in state (the entry
decodes far enough to compute that ID). -/
def nsEntryMismatch (data : NameserverRecordModel) (entry : JsonValue) : Prop :=
  ∃ (recordData : List (String × JsonValue)) (q : Rat),
    entry.asObj = some recordData ∧
    ((List.lookup "id" recordData).getD .null).asNum = some q ∧
    data.domain.valueString ++ ":" ++ toString (ratTrunc q) ≠ data.id.valueString

/-- An entry of the `host.info` record list whose synthesized composite
ID `hostname:roId` differs from the ID stored in state. -/
def glueEntryMismatch (state : GlueRecordResourceModel) (entry : JsonValue) : Prop :=
  ∃ (record : List (String × JsonValue)) (q : Rat),
    entry.asObj = some record ∧
    ((List.lookup "roId" record).getD .null).asNum = some q ∧
    state.hostname.valueString ++ ":" ++ toString (ratTrunc q) ≠ state.id.valueString

theorem goSplitChars_cons (sep c : Char) (rest : List Char) :
    goSplitChars sep (c :: rest) =
      match goSplitChars sep rest with
      | [] => [[]]
      | p :: ps => if c = sep then [] :: p :: ps else (c :: p) :: ps :=
  rfl

theorem goSplitChars_ne_nil (sep : Char) : ∀ l : List Char, goSplitChars sep l ≠ []
  | [] => by simp [goSplitChars]
  | c :: rest => by
    unfold goSplitChars
    cases h : goSplitChars sep rest with
    | nil => simp
    | cons p ps =>
      dsimp only []
      split <;> simp

theorem goSplitChars_of_not_mem {sep : Char} : ∀ {l : List Char}, sep ∉ l →
    goSplitChars sep l = [l]
  | [], _ => rfl
  | c :: rest, h => by
    have hc : c ≠ sep := fun hc => h (hc ▸ List.mem_cons_self c rest)
    have hrest : sep ∉ rest := fun hm => h (List.mem_cons_of_mem c hm)
    unfold goSplitChars
    rw [goSplitChars_of_not_mem hrest]
    simp [hc]

theorem goSplitChars_append {sep : Char} : ∀ {a : List Char} (l : List Char), sep ∉ a →
    goSplitChars sep (a ++ sep :: l) = a :: goSplitChars sep l
  | [], l, _ => by
    obtain ⟨p, ps, hp⟩ := List.exists_cons_of_ne_nil (goSplitChars_ne_nil sep l)
    simp [goSplitChars, hp]
  | c :: a, l, h => by
    have hc : c ≠ sep := fun hc => h (hc ▸ List.mem_cons_self c a)
    have ha : sep ∉ a := fun hm => h (List.mem_cons_of_mem c hm)
    have ih := goSplitChars_append (a := a) l ha
    show goSplitChars sep (c :: (a ++ sep :: l)) = (c :: a) :: goSplitChars sep l
    rw [goSplitChars_cons, ih]
    simp [hc]

theorem joinSepChars_goSplitChars (sep : Char) : ∀ l : List Char,
    joinSepChars sep (goSplitChars sep l) = l
  | [] => rfl
  | c :: rest => by
    have ih := joinSepChars_goSplitChars sep rest
    obtain ⟨p, ps, hp⟩ := List.exists_cons_of_ne_nil (goSplitChars_ne_nil sep rest)
    unfold goSplitChars
    rw [hp]
    dsimp only []
    by_cases hc : c = sep
    · subst hc
      rw [hp] at ih
      simp [joinSepChars, ih]
    · simp only [if_neg hc]
      cases ps with
      | nil => rw [hp] at ih; simpa [joinSepChars] using congrArg (c :: ·) ih
      | cons q qs =>
        rw [hp] at ih
        simpa [joinSepChars] using congrArg (c :: ·) ih

theorem not_mem_of_mem_goSplitChars {sep : Char} : ∀ {l : List Char} {p : List Char},
    p ∈ goSplitChars sep l → sep ∉ p
  | [], p, hp => by
    simp [goSplitChars] at hp
    simp [hp]
  | c :: rest, p, hp => by
    obtain ⟨q, qs, hq⟩ := List.exists_cons_of_ne_nil (goSplitChars_ne_nil sep rest)
    unfold goSplitChars at hp
    rw [hq] at hp
    dsimp only [] at hp
    by_cases hc : c = sep
    · rw [if_pos hc] at hp
      rcases List.mem_cons.mp hp with h | h
      · simp [h]
      · exact not_mem_of_mem_goSplitChars (l := rest) (hq ▸ h)
    · rw [if_neg hc] at hp
      rcases List.mem_cons.mp hp with h | h
      · subst h
        intro hmem
        rcases List.mem_cons.mp hmem with h | h
        · exact hc h.symm
        · exact not_mem_of_mem_goSplitChars (l := rest)
            (hq ▸ List.mem_cons_self q qs) h
      · exact not_mem_of_mem_goSplitChars (l := rest) (hq ▸ List.mem_cons_of_mem q h)

theorem string_toList_append (s t : String) : (s ++ t).toList = s.toList ++ t.toList := by
  cases s
  cases t
  rfl

theorem asString_toList (s : String) : s.toList.asString = s :=
  rfl

theorem toList_asString (l : List Char) : l.asString.toList = l :=
  rfl

theorem asString_data (s : String) : s.data.asString = s :=
  rfl

theorem data_asString (l : List Char) : l.asString.data = l :=
  rfl

theorem string_toList_inj {s t : String} (h : s.toList = t.toList) : s = t := by
  cases s
  cases t
  exact congrArg String.mk h

theorem string_ne_empty_iff_toList {s : String} : s ≠ "" ↔ s.toList ≠ [] := by
  constructor
  · intro h hl
    exact h (string_toList_inj hl)
  · intro h he
    exact h (by rw [he]; rfl)

theorem except_error_ne_ok {ε α : Type} {e : ε} {a : α} :
    (Except.error e : Except ε α) ≠ .ok a :=
  fun h => Except.noConfusion h

theorem goSplit_sep_append {sep : Char} {X Y m : String} (hm : m.toList = [sep])
    (hx : sep ∉ X.toList) (hy : sep ∉ Y.toList) :
    goSplit sep (X ++ m ++ Y) = [X, Y] := by
  have h1 : (X ++ m ++ Y).toList = X.toList ++ sep :: Y.toList := by
    rw [string_toList_append, string_toList_append, hm]
    simp
  unfold goSplit
  rw [h1, goSplitChars_append _ hx, goSplitChars_of_not_mem hy]
  simp [asString_toList, asString_data]

theorem goSplit_eq_two {sep : Char} {s : String}
    (hlen : (goSplit sep s).length = 2) :
    ∃ p0 p1 : List Char,
      goSplitChars sep s.toList = [p0, p1] ∧
      goSplit sep s = [p0.asString, p1.asString] ∧
      s.toList = p0 ++ sep :: p1 ∧ sep ∉ p0 ∧ sep ∉ p1 := by
  have hlen2 : (goSplitChars sep s.toList).length = 2 := by
    simpa [goSplit] using hlen
  obtain ⟨p0, p1, hgs⟩ := List.length_eq_two.mp hlen2
  have hgs' : goSplitChars sep s.data = [p0, p1] := hgs
  refine ⟨p0, p1, hgs, ?_, ?_, ?_, ?_⟩
  · simp [goSplit, hgs, hgs']
  · have := joinSepChars_goSplitChars sep s.toList
    rw [hgs] at this
    simpa [joinSepChars] using this.symm
  · exact not_mem_of_mem_goSplitChars (hgs ▸ List.mem_cons_self p0 [p1])
  · exact not_mem_of_mem_goSplitChars
      (hgs ▸ List.mem_cons_of_mem p0 (List.mem_cons_self p1 []))

/-- C1 counterexample: with components X = "a:b" and Y = "c" (and likewise
with the empty component X = ""), the composite string X ++ ":" ++ Y does
not parse back to (X, Y): both ID parsers reject it. -/
theorem parse_composite_id_counterexample :
    parseGlueRecordID ("a:b" ++ ":" ++ "c") ≠ .ok ("a:b", "c") ∧
    resourceNameserverRecordParseId ("a:b" ++ ":" ++ "c") ≠ .ok ("a:b", "c") ∧
    parseGlueRecordID ("" ++ ":" ++ "c") ≠ .ok ("", "c") ∧
    resourceNameserverRecordParseId ("" ++ ":" ++ "c") ≠ .ok ("", "c") := by
  refine ⟨fun h => ?_, fun h => ?_, fun h => ?_, fun h => ?_⟩ <;>
    exact Except.noConfusion h

/-- C1 (amended): for all non-empty, colon-free components X and Y, the
glue-record ID parser and the nameserver-record ID parser applied to
X ++ ":" ++ Y return exactly the pair (X, Y) with no error. -/
theorem parse_composite_id_roundtrip (X Y : String) (hx : X ≠ "") (hy : Y ≠ "")
    (hcx : ':' ∉ X.toList) (hcy : ':' ∉ Y.toList) :
    parseGlueRecordID (X ++ ":" ++ Y) = .ok (X, Y) ∧
    resourceNameserverRecordParseId (X ++ ":" ++ Y) = .ok (X, Y) := by
  have hsplit : goSplit ':' (X ++ ":" ++ Y) = [X, Y] :=
    goSplit_sep_append rfl hcx hcy
  constructor
  · simp [parseGlueRecordID, hsplit, hx, hy]
  · simp [resourceNameserverRecordParseId, hsplit, hx, hy]

/-- Witness for C1 (amended) at the concrete components
"ns1.example.com" and "12345". -/
theorem parse_composite_id_roundtrip_witness :
    parseGlueRecordID ("ns1.example.com" ++ ":" ++ "12345") = .ok ("ns1.example.com", "12345") ∧
    resourceNameserverRecordParseId ("ns1.example.com" ++ ":" ++ "12345") = .ok ("ns1.example.com", "12345") :=
  parse_composite_id_roundtrip "ns1.example.com" "12345"
    (by decide) (by decide) (by decide) (by decide)

/-- C7: the glue-record import parser succeeds exactly on strings that
split on a colon into two non-empty parts, and the DNSSEC-key import
parser succeeds exactly on strings that split on a slash into two parts
(empty parts allowed); every other string is rejected with an error. -/
theorem import_id_forms (s : String) :
    ((∃ v, parseGlueRecordID s = .ok v) ↔
      ∃ a b : String, s = a ++ ":" ++ b ∧ a ≠ "" ∧ b ≠ "" ∧
        ':' ∉ a.toList ∧ ':' ∉ b.toList) ∧
    ((∃ v, dnssecKeyImportParse s = .ok v) ↔
      ∃ a b : String, s = a ++ "/" ++ b ∧ '/' ∉ a.toList ∧ '/' ∉ b.toList) := by
  constructor
  · constructor
    · rintro ⟨v, hv⟩
      simp only [parseGlueRecordID] at hv
      split at hv
      · exact absurd hv except_error_ne_ok
      · rename_i hcond
        push_neg at hcond
        obtain ⟨hlen, h0, h1⟩ := hcond
        obtain ⟨p0, p1, _, hparts, hjoin, hn0, hn1⟩ := goSplit_eq_two hlen
        refine ⟨p0.asString, p1.asString, ?_, ?_, ?_, ?_, ?_⟩
        · apply string_toList_inj
          rw [hjoin, string_toList_append, string_toList_append]
          simp [toList_asString, data_asString]
        · simpa [hparts] using h0
        · simpa [hparts] using h1
        · simpa [toList_asString] using hn0
        · simpa [toList_asString] using hn1
    · rintro ⟨a, b, hs, ha, hb, hca, hcb⟩
      subst hs
      exact ⟨(a, b), (parse_composite_id_roundtrip a b ha hb hca hcb).1⟩
  · constructor
    · rintro ⟨v, hv⟩
      simp only [dnssecKeyImportParse] at hv
      split at hv
      · exact absurd hv except_error_ne_ok
      · rename_i hcond
        push_neg at hcond
        obtain ⟨p0, p1, _, hparts, hjoin, hn0, hn1⟩ := goSplit_eq_two hcond
        refine ⟨p0.asString, p1.asString, ?_, ?_, ?_⟩
        · apply string_toList_inj
          rw [hjoin, string_toList_append, string_toList_append]
          simp [toList_asString, data_asString]
        · simpa [toList_asString] using hn0
        · simpa [toList_asString] using hn1
    · rintro ⟨a, b, hs, hca, hcb⟩
      subst hs
      have hsplit : goSplit '/' (a ++ "/" ++ b) = [a, b] :=
        goSplit_sep_append rfl hca hcb
      exact ⟨(a, b), by simp [dnssecKeyImportParse, hsplit]⟩

theorem inwxConfigureAuth_trace_cases (u p t : String) (o : String → CallResult) :
    (inwxProviderConfigureAuth u p t o).trace
        = [("account.login", [("user", .str u), ("pass", .str p)])] ∨
    (inwxProviderConfigureAuth u p t o).trace
        = [("account.login", [("user", .str u), ("pass", .str p)]), ("account.info", [])] ∨
    (inwxProviderConfigureAuth u p t o).trace
        = [("account.login", [("user", .str u), ("pass", .str p)]), ("account.info", []),
           ("account.unlock", [("tan", .str t)])] := by
  rcases h1 : o "account.login" with e | r
  · left
    simp [inwxProviderConfigureAuth, h1]
  · rcases h2 : Response.code r with _ | c
    · left
      simp [inwxProviderConfigureAuth, h1, h2]
    · by_cases hc : c ≠ COMMAND_SUCCESSFUL
      · left
        simp [inwxProviderConfigureAuth, h1, h2, hc]
      · rcases h3 : o "account.info" with e | ri
        · right; left
          simp [inwxProviderConfigureAuth, h1, h2, hc, h3]
        · rcases h4 : Response.code ri with _ | ci
          · right; left
            simp [inwxProviderConfigureAuth, h1, h2, hc, h3, h4]
          · by_cases hci : ci = 2200 ∧ t ≠ ""
            · rcases h5 : o "account.unlock" with e | ru
              · right; right
                simp [inwxProviderConfigureAuth, h1, h2, hc, h3, h4, hci, h5]
              · rcases h6 : Response.code ru with _ | cu
                · right; right
                  simp [inwxProviderConfigureAuth, h1, h2, hc, h3, h4, hci, h5, h6]
                · by_cases hcu : cu ≠ COMMAND_SUCCESSFUL
                  · right; right
                    simp [inwxProviderConfigureAuth, h1, h2, hc, h3, h4, hci, h5, h6, hcu]
                  · right; right
                    simp [inwxProviderConfigureAuth, h1, h2, hc, h3, h4, hci, h5, h6, hcu]
            · right; left
              simp [inwxProviderConfigureAuth, h1, h2, hc, h3, h4, hci]

/-- C2: in the configuration authentication phase, after a successful
account.login (code 1000), the account.unlock call is issued if and only
if the account.info call produced a response with code 2200 and the
configured TAN is non-empty; with an empty TAN no unlock call is ever
issued, whatever the account.info outcome. -/
theorem configure_unlock_iff (username password tan : String)
    (oracle : String → CallResult) :
    (∀ rl, oracle "account.login" = .success rl →
      Response.code rl = some COMMAND_SUCCESSFUL →
      ((∃ ps, ("account.unlock", ps) ∈
          (inwxProviderConfigureAuth username password tan oracle).trace) ↔
        (∃ ri, oracle "account.info" = .success ri ∧
          Response.code ri = some 2200 ∧ tan ≠ ""))) ∧
    (tan = "" → ∀ ps, ("account.unlock", ps) ∉
      (inwxProviderConfigureAuth username password tan oracle).trace) := by
  constructor
  · intro rl hl hc
    rcases hinfo : oracle "account.info" with e | ri
    · simp [inwxProviderConfigureAuth, hl, hc, hinfo]
    · rcases hri : Response.code ri with _ | ci
      · simp [inwxProviderConfigureAuth, hl, hc, hinfo, hri]
      · by_cases hci : ci = 2200 ∧ tan ≠ ""
        · obtain ⟨hci1, hci2⟩ := hci
          subst hci1
          rcases hu : oracle "account.unlock" with e | ru
          · simp [inwxProviderConfigureAuth, hl, hc, hinfo, hri, hci2, hu]
          · rcases hru : Response.code ru with _ | cu
            · simp [inwxProviderConfigureAuth, hl, hc, hinfo, hri, hci2, hu, hru]
            · by_cases hcu : cu ≠ COMMAND_SUCCESSFUL
              · simp [inwxProviderConfigureAuth, hl, hc, hinfo, hri, hci2, hu, hru, hcu]
              · simp [inwxProviderConfigureAuth, hl, hc, hinfo, hri, hci2, hu, hru, hcu]
        · simp [inwxProviderConfigureAuth, hl, hc, hinfo, hri, hci]
  · intro htan ps
    subst htan
    rcases h1 : oracle "account.login" with e | r
    · simp [inwxProviderConfigureAuth, h1]
    · rcases h2 : Response.code r with _ | c
      · simp [inwxProviderConfigureAuth, h1, h2]
      · by_cases hc : c ≠ COMMAND_SUCCESSFUL
        · simp [inwxProviderConfigureAuth, h1, h2, hc]
        · rcases h3 : oracle "account.info" with e | ri
          · simp [inwxProviderConfigureAuth, h1, h2, hc, h3]
          · rcases h4 : Response.code ri with _ | ci
            · simp [inwxProviderConfigureAuth, h1, h2, hc, h3, h4]
            · have hci : ¬(ci = 2200 ∧ ("" : String) ≠ "") := by simp
              simp [inwxProviderConfigureAuth, h1, h2, hc, h3, h4, hci]

/-- Witness for C2 at a concrete oracle: login succeeds with code 1000,
account.info reports code 2200, the TAN is "123456", and the unlock call
is issued. -/
theorem configure_unlock_iff_witness :
    ∃ ps, ("account.unlock", ps) ∈
      (inwxProviderConfigureAuth "user" "pass" "123456"
        (fun m =>
          if m = "account.login" then .success [("code", .num 1000)]
          else if m = "account.info" then .success [("code", .num 2200)]
          else .success [("code", .num 1000)])).trace :=
  ((configure_unlock_iff "user" "pass" "123456" _).1
    [("code", .num 1000)] rfl rfl).mpr
    ⟨[("code", .num 2200)], rfl, rfl, by decide⟩

/-- C6: the configuration authentication phase (framework and legacy
provider) issues account.login exactly once and as its first call; a
transport error or a non-1000 code from login ends configuration with an
error diagnostic, and a client is only handed out when login returned
code 1000. -/
theorem configure_login_once (username password tan : String)
    (oracle : String → CallResult) :
    ((inwxProviderConfigureAuth username password tan oracle).trace.countP
        (fun c => c.1 == "account.login") = 1) ∧
    ((inwxProviderConfigureAuth username password tan oracle).trace.head?
        = some ("account.login", [("user", .str username), ("pass", .str password)])) ∧
    (∀ e, oracle "account.login" = .failure e →
      (inwxProviderConfigureAuth username password tan oracle).outcome
        = some (.error ("Could not authenticate at api via account.login: " ++ e))) ∧
    (∀ r c, oracle "account.login" = .success r → Response.code r = some c →
      c ≠ COMMAND_SUCCESSFUL →
      (inwxProviderConfigureAuth username password tan oracle).outcome
        = some (.error ("Could not authenticate at api via account.login. Got response: "
            ++ Response.apiError r))) ∧
    ((inwxProviderConfigureAuth username password tan oracle).outcome = some (.ok ()) →
      ∃ r, oracle "account.login" = .success r ∧
        Response.code r = some COMMAND_SUCCESSFUL) ∧
    ((configureContextAuth username password oracle).trace
        = [("account.login", [("user", .str username), ("pass", .str password)])]) ∧
    (∀ e, oracle "account.login" = .failure e →
      (configureContextAuth username password oracle).outcome
        = some (.error ("Could not authenticate at api via account.login: " ++ e))) ∧
    (∀ r c, oracle "account.login" = .success r → Response.code r = some c →
      c ≠ COMMAND_SUCCESSFUL →
      (configureContextAuth username password oracle).outcome
        = some (.error ("Could not authenticate at api via account.login. Got response: "
            ++ Response.apiError r))) ∧
    ((configureContextAuth username password oracle).outcome = some (.ok ()) →
      ∃ r, oracle "account.login" = .success r ∧
        Response.code r = some COMMAND_SUCCESSFUL) := by
  refine ⟨?_, ?_, ?_, ?_, ?_, ?_, ?_, ?_, ?_⟩
  · rcases inwxConfigureAuth_trace_cases username password tan oracle with h | h | h <;>
      simp [h, List.countP_cons]
  · rcases inwxConfigureAuth_trace_cases username password tan oracle with h | h | h <;>
      simp [h]
  · intro e he
    simp [inwxProviderConfigureAuth, he]
  · intro r c hr hc hne
    simp [inwxProviderConfigureAuth, hr, hc, hne]
  · intro hout
    rcases hr : oracle "account.login" with e | r
    · simp [inwxProviderConfigureAuth, hr] at hout
    · rcases hc : Response.code r with _ | c
      · simp [inwxProviderConfigureAuth, hr, hc] at hout
      · by_cases hne : c ≠ COMMAND_SUCCESSFUL
        · simp [inwxProviderConfigureAuth, hr, hc, hne] at hout
        · push_neg at hne
          exact ⟨r, rfl, hne ▸ hc⟩
  · rcases hr : oracle "account.login" with e | r
    · simp [configureContextAuth, hr]
    · rcases hc : Response.code r with _ | c
      · simp [configureContextAuth, hr, hc]
      · by_cases hne : c ≠ COMMAND_SUCCESSFUL
        · simp [configureContextAuth, hr, hc, hne]
        · simp [configureContextAuth, hr, hc, hne]
  · intro e he
    simp [configureContextAuth, he]
  · intro r c hr hc hne
    simp [configureContextAuth, hr, hc, hne]
  · intro hout
    rcases hr : oracle "account.login" with e | r
    · simp [configureContextAuth, hr] at hout
    · rcases hc : Response.code r with _ | c
      · simp [configureContextAuth, hr, hc] at hout
      · by_cases hne : c ≠ COMMAND_SUCCESSFUL
        · simp [configureContextAuth, hr, hc, hne] at hout
        · push_neg at hne
          exact ⟨r, rfl, hne ▸ hc⟩

/-- Witness for C6 at a concrete oracle whose login response has
code 2400: configuration ends with the login error diagnostic. -/
theorem configure_login_once_witness :
    (inwxProviderConfigureAuth "user" "pass" ""
        (fun _ => .success [("code", .num 2400)])).outcome
      = some (.error ("Could not authenticate at api via account.login. Got response: "
          ++ Response.apiError [("code", .num 2400)])) :=
  (configure_login_once "user" "pass" "" _).2.2.2.1
    [("code", .num 2400)] 2400 rfl rfl (by norm_num [COMMAND_SUCCESSFUL])

/-- C9: `Response.Code` returns the status code exactly when the decoded
response binds "code" to a JSON number; for a missing key or any other
dynamic type its evaluation panics (modelled as `none`), and every
handler whose status-code check evaluates `Code()` propagates that
panic. -/
theorem response_code_precondition (r : Response) :
    (∀ q, Response.lookup r "code" = some (.num q) → Response.code r = some q) ∧
    ((∀ q, Response.lookup r "code" ≠ some (.num q)) → Response.code r = none) ∧
    (Response.code r = none →
      ∀ (dplan : DomainResourceModel) (cplan cstate : DomainContactModel)
        (gplan : GlueRecordResourceModel) (nplan : NameserverRecordModel),
        domainCreateRespond dplan r = none ∧
        domainUpdateRespond dplan r = none ∧
        domainDeleteRespond r = none ∧
        glueCreateRespond gplan r = none ∧
        glueReadRespond gplan r = none ∧
        nsRecordCreateRespond nplan r = none ∧
        contactUpdateRespond cplan cstate r = none ∧
        contactDeleteRespond r = none) := by
  refine ⟨?_, ?_, ?_⟩
  · intro q h
    simp [Response.code, h, JsonValue.asNum]
  · intro h
    rcases hl : Response.lookup r "code" with _ | v
    · simp [Response.code, hl]
    · cases v with
      | num q => exact absurd hl (h q)
      | null => simp [Response.code, hl, JsonValue.asNum]
      | bool b => simp [Response.code, hl, JsonValue.asNum]
      | str s => simp [Response.code, hl, JsonValue.asNum]
      | arr vs => simp [Response.code, hl, JsonValue.asNum]
      | obj fs => simp [Response.code, hl, JsonValue.asNum]
  · intro h dplan cplan cstate gplan nplan
    refine ⟨?_, ?_, ?_, ?_, ?_, ?_, ?_, ?_⟩ <;>
      simp [domainCreateRespond, domainUpdateRespond, domainDeleteRespond,
        glueCreateRespond, glueReadRespond, nsRecordCreateRespond,
        contactUpdateRespond, contactDeleteRespond, h]

/-- Witness for C9: a response binding "code" to a string makes `Code()`
panic and every modelled code-checking handler panic with it. -/
theorem response_code_precondition_witness :
    domainCreateRespond
        ⟨.null, .null, .null, .null, .null, .null, ⟨.null, .null, .null, .null⟩, .null⟩
        [("code", .str "1000")] = none ∧
    domainDeleteRespond [("code", .str "1000")] = none ∧
    nsRecordCreateRespond
        ⟨.null, .null, .null, .null, .null, .null, .null, .null, .null, .null,
          .null, .null, .null, .null, .null⟩
        [("code", .str "1000")] = none :=
  have h := (response_code_precondition [("code", .str "1000")]).2.2 rfl
    ⟨.null, .null, .null, .null, .null, .null, ⟨.null, .null, .null, .null⟩, .null⟩
    ⟨.null, .null, .null, .null, .null, .null, .null, .null, .null, .null, .null, .null, .null, .null⟩
    ⟨.null, .null, .null, .null, .null, .null, .null, .null, .null, .null, .null, .null, .null, .null⟩
    ⟨.null, .null, .null, .null, .null⟩
    ⟨.null, .null, .null, .null, .null, .null, .null, .null, .null, .null,
      .null, .null, .null, .null, .null⟩
  ⟨h.1, h.2.2.1, h.2.2.2.2.2.1⟩

/-- C10: on a `contact.create` response, a string `resData.id` is stored
unchanged, a numeric `resData.id` is truncated to an integer and stored
in decimal string form, and any other dynamic type yields an error
diagnostic with no ID written to state. -/
theorem contact_create_id_resolution (data : DomainContactModel) (r : Response)
    (resData : List (String × JsonValue))
    (hres : Response.lookup r "resData" = some (.obj resData)) :
    (∀ s, List.lookup "id" resData = some (.str s) →
      contactCreateRespond data r = some (.ok { data with id := .known s })) ∧
    (∀ q, List.lookup "id" resData = some (.num q) →
      contactCreateRespond data r =
        some (.ok { data with id := .known (toString (ratTrunc q)) })) ∧
    (∀ v, List.lookup "id" resData = some v → v.asStr = none → v.asNum = none →
      contactCreateRespond data r =
        some (.error ("Failed to resolve contact ID: API returned unexpected type for contact ID: "
          ++ v.goTypeName))) ∧
    (List.lookup "id" resData = none →
      contactCreateRespond data r =
        some (.error
          "Failed to resolve contact ID: API returned unexpected type for contact ID: <nil>")) := by
  refine ⟨?_, ?_, ?_, ?_⟩
  · intro s h
    simp [contactCreateRespond, hres, h, JsonValue.asObj, resolveID]
  · intro q h
    simp [contactCreateRespond, hres, h, JsonValue.asObj, resolveID]
  · intro v h hstr hnum
    cases v with
    | str s => simp [JsonValue.asStr] at hstr
    | num q => simp [JsonValue.asNum] at hnum
    | null => simp [contactCreateRespond, hres, h, JsonValue.asObj, resolveID, JsonValue.goTypeName]
    | bool b => simp [contactCreateRespond, hres, h, JsonValue.asObj, resolveID, JsonValue.goTypeName]
    | arr vs => simp [contactCreateRespond, hres, h, JsonValue.asObj, resolveID, JsonValue.goTypeName]
    | obj fs => simp [contactCreateRespond, hres, h, JsonValue.asObj, resolveID, JsonValue.goTypeName]
  · intro h
    simp [contactCreateRespond, hres, h, JsonValue.asObj, resolveID, JsonValue.goTypeName]

/-- Witness for C10: a numeric ID 12.5 is truncated and stored as "12",
and a string ID "4711" is stored unchanged. -/
theorem contact_create_id_resolution_witness :
    (contactCreateRespond
        ⟨.null, .null, .null, .null, .null, .null, .null, .null, .null, .null, .null, .null, .null, .null⟩
        [("resData", .obj [("id", .num ⟨25, 2, by decide, by decide⟩)])] =
      some (.ok
        ⟨.known (toString (ratTrunc ⟨25, 2, by decide, by decide⟩)), .null, .null, .null, .null,
          .null, .null, .null, .null, .null, .null, .null, .null, .null⟩)) ∧
    toString (ratTrunc ⟨25, 2, by decide, by decide⟩) = "12" ∧
    (contactCreateRespond
        ⟨.null, .null, .null, .null, .null, .null, .null, .null, .null, .null, .null, .null, .null, .null⟩
        [("resData", .obj [("id", .str "4711")])] =
      some (.ok
        ⟨.known "4711", .null, .null, .null, .null, .null, .null,
          .null, .null, .null, .null, .null, .null, .null⟩)) :=
  ⟨(contact_create_id_resolution
      ⟨.null, .null, .null, .null, .null, .null, .null, .null, .null, .null, .null, .null, .null, .null⟩
      [("resData", .obj [("id", .num ⟨25, 2, by decide, by decide⟩)])]
      [("id", .num ⟨25, 2, by decide, by decide⟩)] rfl).2.1
      ⟨25, 2, by decide, by decide⟩ rfl,
    by decide,
    (contact_create_id_resolution
      ⟨.null, .null, .null, .null, .null, .null, .null, .null, .null, .null, .null, .null, .null, .null⟩
      [("resData", .obj [("id", .str "4711")])] [("id", .str "4711")] rfl).1
      "4711" rfl⟩

/-- C3 counterexample: the nameserver-record create handler treats the
pending-success code 1001 as an error, and the contact create handler
performs no status-code check at all — a response with code 2400 still
has its ID written into state. -/
theorem status_code_handling_counterexample :
    (Response.code [("code", .num 1001), ("resData", .obj [("id", .num 42)])]
      = some COMMAND_SUCCESSFUL_PENDING) ∧
    (nsRecordCreateRespond
        ⟨.null, .null, .null, .null, .null, .null, .null, .null, .null, .null,
          .null, .null, .null, .null, .null⟩
        [("code", .num 1001), ("resData", .obj [("id", .num 42)])]
      = some (.error
          (Response.apiError [("code", .num 1001), ("resData", .obj [("id", .num 42)])]))) ∧
    (Response.code [("code", .num 2400), ("resData", .obj [("id", .str "1234")])]
      = some 2400) ∧
    (contactCreateRespond
        ⟨.null, .null, .null, .null, .null, .null, .null, .null, .null, .null, .null, .null, .null, .null⟩
        [("code", .num 2400), ("resData", .obj [("id", .str "1234")])]
      = some (.ok
          ⟨.known "1234", .null, .null, .null, .null, .null, .null, .null, .null, .null,
            .null, .null, .null, .null⟩)) := by
  exact ⟨rfl, rfl, rfl, rfl⟩

/-- C3 (amended): the domain create/update/delete, glue-record create and
contact update/delete handlers treat codes 1000 and 1001 as success and
surface any other code as an error diagnostic containing the marshalled
response body, writing no state; the nameserver-record create handler
treats only code 1000 as success; the contact create handler performs no
status-code check and writes state whatever the code. -/
theorem status_code_handling (r : Response) (c : Rat)
    (hc : Response.code r = some c) :
    ((c ≠ COMMAND_SUCCESSFUL ∧ c ≠ COMMAND_SUCCESSFUL_PENDING) →
      ∀ (dplan : DomainResourceModel) (cplan cstate : DomainContactModel)
        (gplan : GlueRecordResourceModel),
        domainCreateRespond dplan r
          = some (.error ("API response not status code 1000 or 1001. Got response: "
              ++ Response.apiError r)) ∧
        domainUpdateRespond dplan r
          = some (.error ("API response not status code 1000 or 1001. Got response: "
              ++ Response.apiError r)) ∧
        domainDeleteRespond r
          = some (.error ("API response not status code 1000 or 1001. Got response: "
              ++ Response.apiError r)) ∧
        glueCreateRespond gplan r
          = some (.error ("Unexpected API response: " ++ Response.apiError r)) ∧
        contactUpdateRespond cplan cstate r
          = some (.error ("API response: " ++ Response.apiError r)) ∧
        contactDeleteRespond r
          = some (.error ("API response: " ++ Response.apiError r))) ∧
    ((c = COMMAND_SUCCESSFUL ∨ c = COMMAND_SUCCESSFUL_PENDING) →
      ∀ (dplan : DomainResourceModel) (cplan cstate : DomainContactModel),
        domainCreateRespond dplan r
          = some (.ok { dplan with id := .known dplan.name.valueString }) ∧
        domainUpdateRespond dplan r = some (.ok dplan) ∧
        domainDeleteRespond r = some (.ok ()) ∧
        contactUpdateRespond cplan cstate r = some (.ok { cplan with id := cstate.id }) ∧
        contactDeleteRespond r = some (.ok ())) ∧
    (c ≠ COMMAND_SUCCESSFUL →
      ∀ nplan : NameserverRecordModel,
        nsRecordCreateRespond nplan r = some (.error (Response.apiError r))) ∧
    (∀ (cdata : DomainContactModel) (resData : List (String × JsonValue)) (s : String),
      Response.lookup r "resData" = some (.obj resData) →
      List.lookup "id" resData = some (.str s) →
      contactCreateRespond cdata r = some (.ok { cdata with id := .known s })) := by
  refine ⟨?_, ?_, ?_, ?_⟩
  · intro hfail dplan cplan cstate gplan
    refine ⟨?_, ?_, ?_, ?_, ?_, ?_⟩ <;>
      simp [domainCreateRespond, domainUpdateRespond, domainDeleteRespond,
        glueCreateRespond, contactUpdateRespond, contactDeleteRespond,
        hc, hfail.1, hfail.2]
  · intro hsucc dplan cplan cstate
    have h1 : ¬(c ≠ COMMAND_SUCCESSFUL ∧ c ≠ COMMAND_SUCCESSFUL_PENDING) := by
      rcases hsucc with h | h <;> simp [h]
    refine ⟨?_, ?_, ?_, ?_, ?_⟩ <;>
      simp [domainCreateRespond, domainUpdateRespond, domainDeleteRespond,
        contactUpdateRespond, contactDeleteRespond, hc, h1]
  · intro hne nplan
    simp [nsRecordCreateRespond, hc, hne]
  · intro cdata resData s hres hid
    simp [contactCreateRespond, hres, hid, JsonValue.asObj, resolveID]

/-- Witness for C3 (amended) at code 2400: the domain create handler
surfaces the error diagnostic carrying the marshalled response body. -/
theorem status_code_handling_witness :
    domainCreateRespond
        ⟨.null, .null, .null, .null, .null, .null, ⟨.null, .null, .null, .null⟩, .null⟩
        [("code", .num 2400)]
      = some (.error ("API response not status code 1000 or 1001. Got response: "
          ++ Response.apiError [("code", .num 2400)])) :=
  ((status_code_handling [("code", .num 2400)] 2400 rfl).1
    (by norm_num [COMMAND_SUCCESSFUL, COMMAND_SUCCESSFUL_PENDING])
    ⟨.null, .null, .null, .null, .null, .null, ⟨.null, .null, .null, .null⟩, .null⟩
    ⟨.null, .null, .null, .null, .null, .null, .null, .null, .null, .null, .null, .null, .null, .null⟩
    ⟨.null, .null, .null, .null, .null, .null, .null, .null, .null, .null, .null, .null, .null, .null⟩
    ⟨.null, .null, .null, .null, .null⟩).1

theorem isSome_lookup_cons {α β : Type} [BEq α] (k key : α) (v : β) (rest : List (α × β)) :
    (List.lookup k ((key, v) :: rest)).isSome
      = (k == key || (List.lookup k rest).isSome) := by
  simp only [List.lookup]
  cases k == key <;> simp

theorem isSome_lookup_append {α β : Type} [BEq α] (k : α) : ∀ l1 l2 : List (α × β),
    (List.lookup k (l1 ++ l2)).isSome
      = ((List.lookup k l1).isSome || (List.lookup k l2).isSome)
  | [], l2 => by simp [List.lookup]
  | (key, v) :: rest, l2 => by
    rw [List.cons_append, isSome_lookup_cons, isSome_lookup_cons,
      isSome_lookup_append k rest l2, Bool.or_assoc]

theorem isSome_lookup_nil {α β : Type} [BEq α] (k : α) :
    (List.lookup k ([] : List (α × β))).isSome = false :=
  rfl

theorem isSome_lookup_ite_append {α β : Type} [BEq α] (c : Prop) [Decidable c]
    (ps seg : List (α × β)) (k : α) :
    (List.lookup k (if c then ps ++ seg else ps)).isSome
      = ((List.lookup k ps).isSome || (decide c && (List.lookup k seg).isSome)) := by
  by_cases hc : c
  · simp [hc, isSome_lookup_append]
  · simp [hc]

/-- C4 counterexample: the glue-record update handler does not diff plan
against state. With a plan identical to state (so the planned `ip` equals
its state value), the parameter map still contains the `ip` key. -/
theorem update_params_counterexample :
    glueUpdateParams ⟨.known "h.example.org:7", .known "h.example.org", .known 7,
        .known ["192.0.2.1"], .null⟩
      = .ok [("roId", .str "7"), ("ip", .elems ["192.0.2.1"])] := by
  rfl

/-- C4 (amended): the domain and contact update handlers build parameter
maps holding exactly the identifying field plus the fields whose planned
value differs from state (for contacts, provided the type is unchanged,
otherwise the update aborts); the glue-record update handler instead
always sends `roId` and `ip` and keys `hostname` and `testing` off the
plan value being unknown, never off a plan/state difference. -/
theorem update_params_exact :
    (∀ (plan state : DomainResourceModel) (k : String),
      (List.lookup k (domainUpdateParams plan state)).isSome
        = domainUpdateKeySpec plan state k) ∧
    (∀ (plan state : DomainContactModel), plan.type = state.type →
      ∀ (ps : Params) (k : String), contactUpdateParams plan state = .ok ps →
        (List.lookup k ps).isSome = contactUpdateKeySpec plan state k) ∧
    (∀ (plan : GlueRecordResourceModel) (ps : Params),
      glueUpdateParams plan = .ok ps →
      (List.lookup "roId" ps).isSome = true ∧
      (List.lookup "ip" ps).isSome = true ∧
      (List.lookup "hostname" ps).isSome = plan.hostname.isUnknown ∧
      (List.lookup "testing" ps).isSome = plan.testing.isUnknown ∧
      (∀ k, (List.lookup k ps).isSome = true →
        k = "roId" ∨ k = "ip" ∨ k = "hostname" ∨ k = "testing")) := by
  refine ⟨?_, ?_, ?_⟩
  · intro plan state k
    simp only [domainUpdateParams, isSome_lookup_ite_append, isSome_lookup_cons,
      isSome_lookup_nil]
    simp [domainUpdateKeySpec, Bool.or_assoc]
  · intro plan state htype ps k hok
    have hcond : ¬(plan.type ≠ state.type) := by simp [htype]
    simp only [contactUpdateParams] at hok
    rw [if_neg hcond] at hok
    rw [Except.ok.injEq] at hok
    subst hok
    simp only [isSome_lookup_ite_append, isSome_lookup_cons, isSome_lookup_nil]
    simp [contactUpdateKeySpec, Bool.or_assoc]
  · intro plan ps hok
    rcases hparse : parseGlueRecordID plan.id.valueString with e | pair
    · simp [glueUpdateParams, hparse] at hok
    · obtain ⟨d, roid⟩ := pair
      simp only [glueUpdateParams, hparse] at hok
      rw [Except.ok.injEq] at hok
      subst hok
      refine ⟨?_, ?_, ?_, ?_, ?_⟩
      · simp only [isSome_lookup_ite_append, isSome_lookup_cons, isSome_lookup_nil]
        simp
      · simp only [isSome_lookup_ite_append, isSome_lookup_cons, isSome_lookup_nil]
        simp
      · simp only [isSome_lookup_ite_append, isSome_lookup_cons, isSome_lookup_nil]
        simp
      · simp only [isSome_lookup_ite_append, isSome_lookup_cons, isSome_lookup_nil]
        simp
      · intro k hk
        simp only [isSome_lookup_ite_append, isSome_lookup_cons, isSome_lookup_nil] at hk
        simp at hk
        tauto

/-- Witness for C4 (amended): a contact plan differing from state only in
the city yields a parameter map holding the `city` key but not the
`email` key, and a glue plan with an unknown hostname sends `hostname`. -/
theorem update_params_exact_witness :
    ((List.lookup "city"
        (match contactUpdateParams
          ⟨.known "77", .known "PERSON", .known "n", .null, .known "s", .known "newcity",
            .known "p", .null, .known "DE", .known "t", .null, .known "e", .null, .known true⟩
          ⟨.known "77", .known "PERSON", .known "n", .null, .known "s", .known "oldcity",
            .known "p", .null, .known "DE", .known "t", .null, .known "e", .null, .known true⟩ with
          | .ok ps => ps
          | .error _ => [])).isSome = true) ∧
    ((List.lookup "email"
        (match contactUpdateParams
          ⟨.known "77", .known "PERSON", .known "n", .null, .known "s", .known "newcity",
            .known "p", .null, .known "DE", .known "t", .null, .known "e", .null, .known true⟩
          ⟨.known "77", .known "PERSON", .known "n", .null, .known "s", .known "oldcity",
            .known "p", .null, .known "DE", .known "t", .null, .known "e", .null, .known true⟩ with
          | .ok ps => ps
          | .error _ => [])).isSome = false) ∧
    ((List.lookup "hostname"
        (match glueUpdateParams ⟨.known "h.example.org:7", .unknown, .known 7,
            .known ["192.0.2.1"], .null⟩ with
          | .ok ps => ps
          | .error _ => [])).isSome = true) := by
  refine ⟨?_, ?_, ?_⟩
  · exact ((update_params_exact.2.1
      ⟨.known "77", .known "PERSON", .known "n", .null, .known "s", .known "newcity",
        .known "p", .null, .known "DE", .known "t", .null, .known "e", .null, .known true⟩
      ⟨.known "77", .known "PERSON", .known "n", .null, .known "s", .known "oldcity",
        .known "p", .null, .known "DE", .known "t", .null, .known "e", .null, .known true⟩
      rfl _ "city" rfl).trans (by decide))
  · exact ((update_params_exact.2.1
      ⟨.known "77", .known "PERSON", .known "n", .null, .known "s", .known "newcity",
        .known "p", .null, .known "DE", .known "t", .null, .known "e", .null, .known true⟩
      ⟨.known "77", .known "PERSON", .known "n", .null, .known "s", .known "oldcity",
        .known "p", .null, .known "DE", .known "t", .null, .known "e", .null, .known true⟩
      rfl _ "email" rfl).trans (by decide))
  · exact (update_params_exact.2.2
      ⟨.known "h.example.org:7", .unknown, .known 7, .known ["192.0.2.1"], .null⟩
      _ rfl).2.2.1.trans (by decide)

theorem nsRecordReadLoop_skip (data : NameserverRecordModel) (entry : JsonValue)
    (rest : List JsonValue) (hmis : nsEntryMismatch data entry) :
    nsRecordReadLoop data (entry :: rest) = nsRecordReadLoop data rest := by
  obtain ⟨recordData, q, hobj, hq, hne⟩ := hmis
  simp [nsRecordReadLoop, hobj, hq, hne]

theorem nsRecordReadLoop_append_mismatch (data : NameserverRecordModel) :
    ∀ pre rest : List JsonValue, (∀ e ∈ pre, nsEntryMismatch data e) →
      nsRecordReadLoop data (pre ++ rest) = nsRecordReadLoop data rest
  | [], rest, _ => rfl
  | entry :: pre, rest, h => by
    rw [List.cons_append,
      nsRecordReadLoop_skip data entry (pre ++ rest) (h entry (List.mem_cons_self entry pre)),
      nsRecordReadLoop_append_mismatch data pre rest
        (fun e he => h e (List.mem_cons_of_mem entry he))]

theorem nsRecordReadLoop_first_match (data : NameserverRecordModel) (entry : JsonValue)
    (rest : List JsonValue) (recordData : List (String × JsonValue)) (q : Rat)
    (ty content : String)
    (hobj : entry.asObj = some recordData)
    (hq : ((List.lookup "id" recordData).getD .null).asNum = some q)
    (heq : data.domain.valueString ++ ":" ++ toString (ratTrunc q) = data.id.valueString)
    (hty : ((List.lookup "type" recordData).getD .null).asStr = some ty)
    (hcontent : ((List.lookup "content" recordData).getD .null).asStr = some content) :
    nsRecordReadLoop data (entry :: rest)
      = some (.written { data with type := .known ty, content := .known content }) := by
  simp [nsRecordReadLoop, hobj, hq, heq, hty, hcontent]

theorem glueReadLoop_skip (state : GlueRecordResourceModel) (entry : JsonValue)
    (rest : List JsonValue) (hmis : glueEntryMismatch state entry) :
    glueReadLoop state (entry :: rest) = glueReadLoop state rest := by
  obtain ⟨record, q, hobj, hq, hne⟩ := hmis
  simp [glueReadLoop, hobj, hq, hne]

theorem glueReadLoop_append_mismatch (state : GlueRecordResourceModel) :
    ∀ pre rest : List JsonValue, (∀ e ∈ pre, glueEntryMismatch state e) →
      glueReadLoop state (pre ++ rest) = glueReadLoop state rest
  | [], rest, _ => rfl
  | entry :: pre, rest, h => by
    rw [List.cons_append,
      glueReadLoop_skip state entry (pre ++ rest) (h entry (List.mem_cons_self entry pre)),
      glueReadLoop_append_mismatch state pre rest
        (fun e he => h e (List.mem_cons_of_mem entry he))]

theorem glueReadLoop_match_step (state : GlueRecordResourceModel) (entry : JsonValue)
    (rest : List JsonValue) (record : List (String × JsonValue)) (q : Rat)
    (hn : String) (ips : List JsonValue)
    (hobj : entry.asObj = some record)
    (hq : ((List.lookup "roId" record).getD .null).asNum = some q)
    (heq : state.hostname.valueString ++ ":" ++ toString (ratTrunc q) = state.id.valueString)
    (hhn : ((List.lookup "hostname" record).getD .null).asStr = some hn)
    (hips : ((List.lookup "ip" record).getD .null).asArr = some ips) :
    glueReadLoop state (entry :: rest)
      = glueReadLoop
          { state with
            roID := .known (ratTrunc q)
            hostname := .known hn
            ip := listValueFrom ips } rest := by
  simp [glueReadLoop, hobj, hq, heq, hhn, hips]

/-- C5: both list-and-filter reads copy fields into state only from
entries whose synthesized composite ID (`domain:id` for nameserver
records, `hostname:roId` for glue records) equals the ID stored in
state. Entries with any other ID leave the state fields unchanged; when
exactly one entry matches, the resulting state is determined by that
entry; when no entry matches, the nameserver-record read removes the
resource and the glue-record read leaves the state untouched. -/
theorem read_filters_by_composite_id :
    (∀ (data : NameserverRecordModel) (entry : JsonValue) (rest : List JsonValue),
      nsEntryMismatch data entry →
      nsRecordReadLoop data (entry :: rest) = nsRecordReadLoop data rest) ∧
    (∀ (data : NameserverRecordModel) (pre post : List JsonValue)
       (entry : JsonValue) (recordData : List (String × JsonValue)) (q : Rat)
       (ty content : String),
      (∀ e ∈ pre, nsEntryMismatch data e) →
      entry.asObj = some recordData →
      ((List.lookup "id" recordData).getD .null).asNum = some q →
      data.domain.valueString ++ ":" ++ toString (ratTrunc q) = data.id.valueString →
      ((List.lookup "type" recordData).getD .null).asStr = some ty →
      ((List.lookup "content" recordData).getD .null).asStr = some content →
      nsRecordReadLoop data (pre ++ entry :: post)
        = some (.written { data with type := .known ty, content := .known content })) ∧
    (∀ (data : NameserverRecordModel) (records : List JsonValue),
      (∀ e ∈ records, nsEntryMismatch data e) →
      nsRecordReadLoop data records = some .removed) ∧
    (∀ (state : GlueRecordResourceModel) (entry : JsonValue) (rest : List JsonValue),
      glueEntryMismatch state entry →
      glueReadLoop state (entry :: rest) = glueReadLoop state rest) ∧
    (∀ (state : GlueRecordResourceModel) (pre post : List JsonValue)
       (entry : JsonValue) (record : List (String × JsonValue)) (q : Rat)
       (hn : String) (ips : List JsonValue),
      (∀ e ∈ pre, glueEntryMismatch state e) →
      entry.asObj = some record →
      ((List.lookup "roId" record).getD .null).asNum = some q →
      state.hostname.valueString ++ ":" ++ toString (ratTrunc q) = state.id.valueString →
      ((List.lookup "hostname" record).getD .null).asStr = some hn →
      ((List.lookup "ip" record).getD .null).asArr = some ips →
      (∀ e ∈ post, glueEntryMismatch
          { state with
            roID := .known (ratTrunc q)
            hostname := .known hn
            ip := listValueFrom ips } e) →
      glueReadLoop state (pre ++ entry :: post)
        = some
            { state with
              roID := .known (ratTrunc q)
              hostname := .known hn
              ip := listValueFrom ips }) ∧
    (∀ (state : GlueRecordResourceModel) (records : List JsonValue),
      (∀ e ∈ records, glueEntryMismatch state e) →
      glueReadLoop state records = some state) := by
  have hnsrem : ∀ (data : NameserverRecordModel) (records : List JsonValue),
      (∀ e ∈ records, nsEntryMismatch data e) →
      nsRecordReadLoop data records = some .removed := by
    intro data records h
    have := nsRecordReadLoop_append_mismatch data records [] h
    rw [List.append_nil] at this
    rw [this]
    rfl
  have hgluerem : ∀ (state : GlueRecordResourceModel) (records : List JsonValue),
      (∀ e ∈ records, glueEntryMismatch state e) →
      glueReadLoop state records = some state := by
    intro state records h
    have := glueReadLoop_append_mismatch state records [] h
    rw [List.append_nil] at this
    rw [this]
    rfl
  refine ⟨nsRecordReadLoop_skip, ?_, hnsrem, glueReadLoop_skip, ?_, hgluerem⟩
  · intro data pre post entry recordData q ty content hpre hobj hq heq hty hcontent
    rw [nsRecordReadLoop_append_mismatch data pre (entry :: post) hpre,
      nsRecordReadLoop_first_match data entry post recordData q ty content
        hobj hq heq hty hcontent]
  · intro state pre post entry record q hn ips hpre hobj hq heq hhn hips hpost
    rw [glueReadLoop_append_mismatch state pre (entry :: post) hpre,
      glueReadLoop_match_step state entry post record q hn ips hobj hq heq hhn hips,
      hgluerem _ post hpost]

/-- Witness for C5: for both reads, a two-entry record list whose first
entry carries a different numeric ID and whose second entry matches the
state's composite ID yields exactly the second entry's fields. -/
theorem read_filters_by_composite_id_witness :
    nsRecordReadLoop
        ⟨.known "example.com:7", .known "example.com", .null, .null, .null, .null, .null,
          .null, .null, .null, .null, .null, .null, .null, .null⟩
        [.obj [("id", .num 3)],
         .obj [("id", .num 7), ("type", .str "A"), ("content", .str "192.0.2.4")]]
      = some (.written
          ⟨.known "example.com:7", .known "example.com", .null, .known "A",
            .known "192.0.2.4", .null, .null, .null, .null, .null, .null, .null,
            .null, .null, .null⟩) ∧
    glueReadLoop
        ⟨.known "h.example.org:7", .known "h.example.org", .known 0, .null, .null⟩
        [.obj [("roId", .num 3)],
         .obj [("roId", .num 7), ("hostname", .str "h2.example.org"),
               ("ip", .arr [.str "192.0.2.5"])]]
      = some ⟨.known "h.example.org:7", .known "h2.example.org", .known 7,
          .known ["192.0.2.5"], .null⟩ := by
  constructor
  · exact read_filters_by_composite_id.2.1
      ⟨.known "example.com:7", .known "example.com", .null, .null, .null, .null, .null,
        .null, .null, .null, .null, .null, .null, .null, .null⟩
      [.obj [("id", .num 3)]] []
      (.obj [("id", .num 7), ("type", .str "A"), ("content", .str "192.0.2.4")])
      [("id", .num 7), ("type", .str "A"), ("content", .str "192.0.2.4")]
      7 "A" "192.0.2.4"
      (by
        intro e he
        simp at he
        subst he
        exact ⟨[("id", .num 3)], 3, rfl, rfl, by decide⟩)
      rfl rfl (by decide) rfl rfl
  · exact read_filters_by_composite_id.2.2.2.2.1
      ⟨.known "h.example.org:7", .known "h.example.org", .known 0, .null, .null⟩
      [.obj [("roId", .num 3)]] []
      (.obj [("roId", .num 7), ("hostname", .str "h2.example.org"),
             ("ip", .arr [.str "192.0.2.5"])])
      [("roId", .num 7), ("hostname", .str "h2.example.org"),
       ("ip", .arr [.str "192.0.2.5"])]
      7 "h2.example.org" [.str "192.0.2.5"]
      (by
        intro e he
        simp at he
        subst he
        exact ⟨[("roId", .num 3)], 3, rfl, rfl, by decide⟩)
      rfl rfl (by decide) rfl rfl
      (by intro e he; simp at he)

end Inwx
